import Mathlib

/-!
Verification development for the Shotify clip-player repository.

The definitions below are a shallow embedding of the playback code in
`src/App.tsx` and the pure utilities in `src/utils.ts`.  Pure functions
become Lean functions; the React component's state and refs become an
explicit record (`AppState`); asynchronous outcomes (whether a remote
call succeeds, which interstitial continuation fires) become explicit
boolean parameters; observable side effects (remote calls, local audio
calls, timer management) become an emitted trace of `Event`s.
-/

namespace Shotify

/-! ## utils.ts : Fisher–Yates shuffle

Source (`src/utils.ts`, `shuffle`):
```
const out = [...array]
for (let i = out.length - 1; i > 0; i--) {
  const j = Math.floor(Math.random() * (i + 1));
  [out[i], out[j]] = [out[j], out[i]]
}
return out
```
`Math.floor(Math.random() * (i + 1))` is a value in `[0, i]`; we model the
random source as an oracle `rand : Nat → Nat` reduced mod `i + 1`, which
reaches exactly the same set of indices.  The copy `[...array]` and the
in-place swaps on the copy become a pure fold over the list. -/

/-- Swap the elements at positions `i` and `j` of a list; identity when either
index is out of range (in the source both indices are always in range). -/
def listSwap {α : Type _} (l : List α) (i j : Nat) : List α :=
  match l[i]?, l[j]? with
  | some a, some b => (l.set i b).set j a
  | _, _ => l

/-- The loop of the Fisher–Yates shuffle: runs the body for
`i = n, n-1, ..., 1` (the source loop condition is `i > 0`). -/
def fisherYatesAux {α : Type _} (rand : Nat → Nat) : List α → Nat → List α
  | l, 0 => l
  | l, i + 1 => fisherYatesAux rand (listSwap l (i + 1) (rand (i + 1) % (i + 2))) i

/-- `shuffle` from `src/utils.ts`, parametrised by the random oracle.
For an empty list `out.length - 1` is `-1` and the loop does not run;
`Nat` subtraction gives the same behaviour. -/
def shuffle {α : Type _} (rand : Nat → Nat) (l : List α) : List α :=
  fisherYatesAux rand l (l.length - 1)

/-! ## App.tsx : constants and data model -/

/-- Web Playback SDK clip: start at 45s. -/
def SDK_CLIP_START_MS : Nat := 45000

/-- Web Playback SDK clip: play for 60s. -/
def SDK_CLIP_DURATION_MS : Nat := 60000

/-- Preview fallback clip: start at 0, play 30s. -/
def PREVIEW_CLIP_DURATION_MS : Nat := 30000

/-- The fields of a `Track` that the playback logic reads (`uri` selects the
SDK backend, `previewUrl` the preview backend, `name` appears in the
unplayable warning). -/
structure Track where
  id : String
  uri : Option String
  name : String
  previewUrl : Option String
deriving Repr, DecidableEq

/-- External inputs the handlers read: the access token, the SDK device id
and the player-ready flag. -/
structure Env where
  accessToken : Option String
  deviceId : Option String
  playerReady : Bool
deriving Repr, DecidableEq

/-- Observable side effects of the handlers, in program order.  `timerStart c`
records the `setInterval` whose ticks report `c + (now - start)` elapsed;
`remotePlay p` is the `PUT /me/player/play` call with `position_ms = p`;
`playAtCall i` marks the advance chain handing off to `playTrackAtIndex(i)`
(where the next clip's audio begins loading). -/
inductive Event where
  | warnUnplayable (trackName : String)
  | localPause
  | timerCancel
  | timerStart (carryOverMs : Nat)
  | remotePlay (positionMs : Nat)
  | remotePause
  | previewPlay (positionMs : Nat)
  | interstitialStop
  | interstitialStart (url : String)
  | interstitialEnded
  | interstitialFailed
  | currentIndexSet (i : Nat)
  | settleDelay (ms : Nat)
  | playAtCall (i : Nat)
deriving Repr, DecidableEq

/-- The component's playback-relevant state and refs.  `clipTimer = some c`
models a live `clipTimerRef` interval whose closure carries the resume
carry-over `c` (`0` for a fresh `playTrackAtIndex`); `audioRef = some p`
models a live preview audio element positioned at `p` ms;
`inBetweenAudioRef = some url` models a live interstitial element. -/
structure AppState where
  tracks : List Track
  currentIndex : Option Nat
  isPlaying : Bool
  clipElapsedMs : Nat
  clipDurationMs : Nat
  songsPlayed : Nat
  selectedInBetweenSound : Option String
  clipTimer : Option Nat
  audioRef : Option Nat
  inBetweenAudioRef : Option String
  useSdk : Bool
  hasAdvanced : Bool
deriving Repr, DecidableEq

/-- `canUseSdk` condition of `playTrackAtIndex` / `handleResume`:
`playerReady && deviceId && track.uri`. -/
def canUseSdk (env : Env) (t : Track) : Bool :=
  env.playerReady && env.deviceId.isSome && t.uri.isSome

/-- `canUsePreview` condition: `!!track.previewUrl`. -/
def canUsePreview (t : Track) : Bool :=
  t.previewUrl.isSome

/-- `clearClipTimer`: clear the interval driving clip progress, if any
(idempotent; the guard only avoids a redundant `clearInterval`). -/
def clearClipTimer (s : AppState) : AppState × List Event :=
  ({ s with clipTimer := none },
    if s.clipTimer.isSome then [Event.timerCancel] else [])

/-- The `audioRef` release prologue: `pause(); currentTime = 0; audioRef = null`
when a preview element is live. -/
def stopAudioRef (s : AppState) : AppState × List Event :=
  ({ s with audioRef := none },
    if s.audioRef.isSome then [Event.localPause] else [])

/-- Release of `inBetweenAudioRef`: `pause(); currentTime = 0; ref = null`
when an interstitial element is live. -/
def stopInBetween (s : AppState) : AppState × List Event :=
  ({ s with inBetweenAudioRef := none },
    if s.inBetweenAudioRef.isSome then [Event.interstitialStop] else [])

/-! ## The advance chain (`doAdvance` in the tick closures and in
`handleResume`; the same code is duplicated at each site in the source).

`interOk` selects which of the interstitial's two continuations fires:
`onended` (natural completion) or the rejection handler of `play()`.
Exactly one of them runs, and both detach the handle, publish the next
index and hand off to `playTrackAtIndex(nextIndex)`. -/

/-- The advance chain after the current clip has been stopped: read the
interstitial selection now, then either play the interstitial and continue
on its completion/failure, or wait a fixed 300ms settle delay and continue. -/
def doAdvance (interOk : Bool) (nextIndex : Nat) (s : AppState) :
    AppState × List Event :=
  match s.selectedInBetweenSound with
  | some url =>
    let r := stopInBetween s
    let s2 := { r.1 with inBetweenAudioRef := some url }
    if interOk then
      ({ s2 with inBetweenAudioRef := none, currentIndex := some nextIndex },
        r.2 ++ [Event.interstitialStart url, Event.interstitialEnded,
          Event.currentIndexSet nextIndex, Event.playAtCall nextIndex])
    else
      ({ s2 with inBetweenAudioRef := none, currentIndex := some nextIndex },
        r.2 ++ [Event.interstitialStart url, Event.interstitialFailed,
          Event.currentIndexSet nextIndex, Event.playAtCall nextIndex])
  | none =>
    ({ s with currentIndex := some nextIndex },
      [Event.currentIndexSet nextIndex, Event.settleDelay 300,
        Event.playAtCall nextIndex])

/-- The SDK-path interval callback (both the one installed by
`playTrackAtIndex`, with `carry = 0`, and the one installed by
`handleResume`, with `carry = startElapsed`).  `pauseOk` is whether the
remote pause call succeeds: its `.then` and its `.catch` both continue
with `doAdvance`. -/
def sdkTick (env : Env) (pauseOk interOk : Bool) (index ntracks carry elapsed : Nat)
    (s : AppState) : AppState × List Event :=
  let totalElapsed := carry + elapsed
  if SDK_CLIP_DURATION_MS ≤ totalElapsed then
    if s.hasAdvanced then (s, [])
    else
      let s1 := { s with hasAdvanced := true }
      let r2 := clearClipTimer s1
      let s3 := { r2.1 with
        clipElapsedMs := SDK_CLIP_DURATION_MS, isPlaying := false }
      let nextIndex := (index + 1) % ntracks
      if env.deviceId.isSome && env.accessToken.isSome then
        if pauseOk then
          let r := doAdvance interOk nextIndex s3
          (r.1, r2.2 ++ [Event.remotePause] ++ r.2)
        else
          let r := doAdvance interOk nextIndex s3
          (r.1, r2.2 ++ [Event.remotePause] ++ r.2)
      else
        let r := doAdvance interOk nextIndex s3
        (r.1, r2.2 ++ r.2)
  else
    ({ s with clipElapsedMs := totalElapsed }, [])

/-- `advanceToNext` of the preview path (shared by `audio.onended` and the
preview interval callback, in both `playTrackAtIndex` and `handleResume`). -/
def advanceToNext (interOk : Bool) (index ntracks : Nat) (s : AppState) :
    AppState × List Event :=
  if s.hasAdvanced then (s, [])
  else
    let s1 := { s with hasAdvanced := true }
    let r2 := clearClipTimer s1
    let s3 := { r2.1 with
      clipElapsedMs := PREVIEW_CLIP_DURATION_MS, isPlaying := false }
    let r4 := stopAudioRef s3
    let nextIndex := (index + 1) % ntracks
    let r5 := doAdvance interOk nextIndex r4.1
    (r5.1, r2.2 ++ r4.2 ++ r5.2)

/-- The preview-path interval callback (`carry = 0` for a fresh play,
`carry = startElapsed` for a resume). -/
def previewTick (interOk : Bool) (index ntracks carry elapsed : Nat)
    (s : AppState) : AppState × List Event :=
  if PREVIEW_CLIP_DURATION_MS ≤ carry + elapsed then
    advanceToNext interOk index ntracks s
  else
    ({ s with clipElapsedMs := carry + elapsed }, [])

/-- `playTrackAtIndex(index)` up to and including issuing the backend start
call and installing the interval.  `sdkStartOk` is whether the awaited SDK
start `fetch` succeeds; on the preview path the rejected `play()` promise is
handled later by `previewPlayCatch` (the interval is installed either way,
synchronously after `play()` is called). -/
def playTrackAtIndex (env : Env) (sdkStartOk : Bool) (index : Nat)
    (s : AppState) : AppState × List Event :=
  match s.tracks[index]? with
  | none => (s, [])
  | some track =>
    if env.accessToken.isNone then (s, [])
    else
      if !canUseSdk env track && !canUsePreview track then
        (s, [Event.warnUnplayable track.name])
      else
        let r1 := stopAudioRef s
        let r2 := clearClipTimer r1.1
        let s3 := { r2.1 with
          clipElapsedMs := 0, currentIndex := some index, isPlaying := true,
          songsPlayed := r2.1.songsPlayed + 1, hasAdvanced := false }
        if canUseSdk env track then
          let s4 := { s3 with
            useSdk := true, clipDurationMs := SDK_CLIP_DURATION_MS }
          if sdkStartOk then
            ({ s4 with clipTimer := some 0 },
              r1.2 ++ r2.2 ++ [Event.remotePlay SDK_CLIP_START_MS,
                Event.timerStart 0])
          else
            ({ s4 with isPlaying := false },
              r1.2 ++ r2.2 ++ [Event.remotePlay SDK_CLIP_START_MS])
        else
          let s4 := { s3 with
            useSdk := false, clipDurationMs := PREVIEW_CLIP_DURATION_MS,
            audioRef := some 0, clipTimer := some 0 }
          (s4, r1.2 ++ r2.2 ++ [Event.previewPlay 0, Event.timerStart 0])

/-- The rejection handler of the preview `audio.play()` promise:
`console.error(...); setIsPlaying(false)` — nothing else (in particular the
already-installed clip interval is not cancelled). -/
def previewPlayCatch (s : AppState) : AppState :=
  { s with isPlaying := false }

/-- `handlePause`: cancel the clip interval, stop any interstitial, pause the
active backend, keep `clipElapsedMs` for resume. -/
def handlePause (env : Env) (s : AppState) : AppState × List Event :=
  let r1 := clearClipTimer s
  let r2 := stopInBetween r1.1
  if r2.1.useSdk && env.deviceId.isSome && env.accessToken.isSome then
    ({ r2.1 with isPlaying := false }, r1.2 ++ r2.2 ++ [Event.remotePause])
  else
    if r2.1.audioRef.isSome then
      ({ r2.1 with isPlaying := false }, r1.2 ++ r2.2 ++ [Event.localPause])
    else
      ({ r2.1 with isPlaying := false }, r1.2 ++ r2.2)

/-- `handleResume`: recompute the backend choice, then restart it at
`clip-window start + clipElapsedMs` (SDK) or at position `clipElapsedMs`
(preview), installing an interval that carries over `startElapsed`. -/
def handleResume (env : Env) (sdkStartOk : Bool) (s : AppState) :
    AppState × List Event :=
  match s.currentIndex with
  | none => (s, [])
  | some index =>
    match s.tracks[index]? with
    | none => (s, [])
    | some track =>
      if env.accessToken.isNone then (s, [])
      else
        let startElapsed := s.clipElapsedMs
        let r1 := clearClipTimer s
        let r2 := stopInBetween r1.1
        let s3 := { r2.1 with isPlaying := true, hasAdvanced := false }
        if canUseSdk env track then
          let s4 := { s3 with
            useSdk := true, clipDurationMs := SDK_CLIP_DURATION_MS }
          if sdkStartOk then
            ({ s4 with clipTimer := some startElapsed },
              r1.2 ++ r2.2 ++
                [Event.remotePlay (SDK_CLIP_START_MS + startElapsed),
                  Event.timerStart startElapsed])
          else
            ({ s4 with isPlaying := false },
              r1.2 ++ r2.2 ++
                [Event.remotePlay (SDK_CLIP_START_MS + startElapsed)])
        else
          let s4 := { s3 with
            useSdk := false, clipDurationMs := PREVIEW_CLIP_DURATION_MS,
            audioRef := some startElapsed, clipTimer := some startElapsed }
          (s4, r1.2 ++ r2.2 ++ [Event.previewPlay startElapsed,
            Event.timerStart startElapsed])

/-- `handleNext`: clamped manual navigation — no-op at the last index. -/
def handleNext (env : Env) (sdkStartOk : Bool) (s : AppState) :
    AppState × List Event :=
  match s.currentIndex with
  | none => (s, [])
  | some i =>
    if s.tracks.length ≤ i + 1 then (s, [])
    else playTrackAtIndex env sdkStartOk (i + 1) s

/-- `handlePrev`: clamped manual navigation — no-op at index 0. -/
def handlePrev (env : Env) (sdkStartOk : Bool) (s : AppState) :
    AppState × List Event :=
  match s.currentIndex with
  | none => (s, [])
  | some i =>
    if i = 0 then (s, [])
    else playTrackAtIndex env sdkStartOk (i - 1) s

/-- Number of advance hand-offs (`playTrackAtIndex` invocations requested by
the Sequencer chain) recorded in a trace. -/
def countPlayAtCalls (l : List Event) : Nat :=
  (l.filter fun e => match e with | Event.playAtCall _ => true | _ => false).length

/-! ## The playlist-selection effect and its fetch continuation
(App.tsx lines 296–396). -/

/-- The `added by` profile data loaded per user id. -/
structure UserProfile where
  displayName : String
  imageUrl : Option String
deriving Repr, DecidableEq

/-- The list-level session state touched by the playlist effect. -/
structure ListSession where
  tracks : List Track
  currentIndex : Option Nat
  userProfiles : List (String × UserProfile)
  tracksLoading : Bool
deriving Repr, DecidableEq

/-- Synchronous body of the playlist-selection effect: it resets the list
state and starts a paginated fetch.  The effect registers no cleanup and
keeps no generation token, so a fetch started by an earlier run is not
invalidated. -/
def selectPlaylistEffect (s : ListSession) : ListSession :=
  { s with
    tracksLoading := true, tracks := [], currentIndex := none,
    userProfiles := [] }

/-- The continuation of `fetchPage()` (`.then` at line 352): once the pages
for the playlist it was started for have been accumulated into `all`, it
unconditionally installs `shuffle([...all])` as the track list — there is no
check that the selection that started it is still current. -/
def fetchPageContinuation (rand : Nat → Nat) (all : List Track)
    (s : ListSession) : ListSession :=
  { s with tracks := shuffle rand all, tracksLoading := false }

/-! ## Abbreviations and concrete fixtures used by the theorems below -/

/-- The state reached inside the tick callback right after the one-shot guard
has been set and the current clip stopped, before the Sequencer hand-off. -/
def clipEndState (s : AppState) : AppState :=
  { s with
    hasAdvanced := true, clipTimer := none,
    clipElapsedMs := SDK_CLIP_DURATION_MS, isPlaying := false }

/-- A track playable on both backends. -/
def sdkTrack : Track :=
  ⟨"t1", some "spotify:track:1", "Full Song", some "https://cdn/p1.mp3"⟩

/-- A preview-only track (no SDK uri). -/
def previewOnlyTrack : Track :=
  ⟨"t2", none, "Preview Song", some "https://cdn/p2.mp3"⟩

/-- An unplayable track: neither uri nor preview url. -/
def unplayableTrack : Track := ⟨"t3", none, "Silent Song", none⟩

/-- Tracks of two different playlists, for the stale-fetch scenario. -/
def trackA : Track := ⟨"a1", some "spotify:track:a1", "Alpha", none⟩

/-- See `trackA`. -/
def trackB : Track := ⟨"b1", some "spotify:track:b1", "Beta", none⟩

/-- Environment with a token, a ready SDK device. -/
def envReady : Env := ⟨some "token", some "device", true⟩

/-- Environment with a token but no SDK device. -/
def envNoSdk : Env := ⟨some "token", none, false⟩

/-- Fresh session state over a given track list (nothing loaded yet). -/
def initialState (ts : List Track) : AppState :=
  ⟨ts, none, false, 0, SDK_CLIP_DURATION_MS, 0, none, none, none, none,
    false, false⟩

/-- Mid-clip SDK playback of the only track, guard unset, timer live. -/
def sdkPlayingState : AppState :=
  ⟨[sdkTrack], some 0, true, 59900, SDK_CLIP_DURATION_MS, 1, none, some 0,
    none, none, true, false⟩

/-- Paused mid-clip on the SDK backend at 12.3s (timer cancelled by pause). -/
def sdkPausedState : AppState :=
  ⟨[sdkTrack], some 0, false, 12300, SDK_CLIP_DURATION_MS, 1, none, none,
    none, none, true, false⟩

/-- Paused mid-clip on the preview backend at 5s; the track also has an SDK
uri, so with a ready device a resume switches backend kind. -/
def previewPausedState : AppState :=
  ⟨[sdkTrack], some 0, false, 5000, PREVIEW_CLIP_DURATION_MS, 1, none, none,
    some 5000, none, false, false⟩

/-- Paused mid-clip on the preview backend at 8s on a preview-only track. -/
def previewOnlyPausedState : AppState :=
  ⟨[previewOnlyTrack], some 0, false, 8000, PREVIEW_CLIP_DURATION_MS, 1,
    none, none, some 8000, none, false, false⟩

/-- Paused mid-clip on the SDK backend at 20s, but the device is gone at
resume time (environment `envNoSdk`), so a resume switches to Preview. -/
def sdkPausedOfflineState : AppState :=
  ⟨[sdkTrack], some 0, false, 20000, SDK_CLIP_DURATION_MS, 1, none, none,
    none, none, true, false⟩

/-- Paused on the SDK backend while an interstitial is still live and an
interstitial sound is selected. -/
def interstitialLiveState : AppState :=
  ⟨[sdkTrack], some 0, false, 60000, SDK_CLIP_DURATION_MS, 1, some "chime",
    none, none, some "chime", true, true⟩

/-- An empty list-level session, before any playlist is selected. -/
def emptyListSession : ListSession := ⟨[], none, [], false⟩

/-! # Theorems -/

/-- Setting position `k` (which holds `b`) to `a` and consing `b` in front is
a permutation of consing `a` in front of the original list. -/
theorem cons_set_perm {α : Type _} :
    ∀ (t : List α) (k : Nat) (a b : α), t[k]? = some b →
      (b :: t.set k a).Perm (a :: t) := by
  intro t
  induction t with
  | nil => intro k a b h; simp at h
  | cons c t ih =>
    intro k a b h
    cases k with
    | zero =>
      simp only [List.getElem?_cons_zero, Option.some_inj] at h
      subst h
      simpa using List.Perm.swap a c t
    | succ m =>
      simp only [List.getElem?_cons_succ] at h
      simp only [List.set_cons_succ]
      exact ((List.Perm.swap c b _).trans ((ih m a b h).cons c)).trans
        (List.Perm.swap a c t)

/-- Both sets of a swap together preserve the multiset of elements. -/
theorem set_set_perm {α : Type _} :
    ∀ (l : List α) (i j : Nat) (a b : α), l[i]? = some a → l[j]? = some b →
      ((l.set i b).set j a).Perm l := by
  intro l
  induction l with
  | nil => intro i j a b ha _; simp at ha
  | cons c t ih =>
    intro i j a b ha hb
    cases i with
    | zero =>
      simp only [List.getElem?_cons_zero, Option.some_inj] at ha
      subst ha
      cases j with
      | zero =>
        simp
      | succ m =>
        simp only [List.getElem?_cons_succ] at hb
        simp only [List.set_cons_zero, List.set_cons_succ]
        exact cons_set_perm t m c b hb
    | succ k =>
      simp only [List.getElem?_cons_succ] at ha
      cases j with
      | zero =>
        simp only [List.getElem?_cons_zero, Option.some_inj] at hb
        subst hb
        simp only [List.set_cons_succ, List.set_cons_zero]
        exact cons_set_perm t k c a ha
      | succ m =>
        simp only [List.getElem?_cons_succ] at hb
        simp only [List.set_cons_succ]
        exact (ih k m a b ha hb).cons c

/-- A `listSwap` is always a permutation of the original list. -/
theorem listSwap_perm {α : Type _} (l : List α) (i j : Nat) :
    (listSwap l i j).Perm l := by
  unfold listSwap
  split
  · next a b ha hb => exact set_set_perm l i j a b ha hb
  · exact List.Perm.refl l

/-- The Fisher–Yates loop preserves the multiset of elements. -/
theorem fisherYatesAux_perm {α : Type _} (rand : Nat → Nat) :
    ∀ (n : Nat) (l : List α), (fisherYatesAux rand l n).Perm l := by
  intro n
  induction n with
  | zero => intro l; exact List.Perm.refl l
  | succ i ih =>
    intro l
    exact (ih _).trans (listSwap_perm l (i + 1) (rand (i + 1) % (i + 2)))

/-- `shuffle` returns a permutation of its input. -/
theorem shuffle_perm {α : Type _} (rand : Nat → Nat) (l : List α) :
    (shuffle rand l).Perm l :=
  fisherYatesAux_perm rand (l.length - 1) l

/-! ## Helper lemmas about the session model -/

/-- The state component of `handlePause`: timer cleared, interstitial
detached, not playing — everything else (in particular `clipElapsedMs`,
`currentIndex`, `tracks`, `audioRef`) untouched. -/
theorem handlePause_fst (env : Env) (s : AppState) :
    (handlePause env s).1 =
      { s with
        clipTimer := none, inBetweenAudioRef := none,
        isPlaying := false } := by
  simp only [handlePause, clearClipTimer, stopInBetween]
  split
  · rfl
  · split <;> rfl

/-- Every run of the advance chain hands off to `playTrackAtIndex` exactly
once, whichever interstitial continuation fires. -/
theorem doAdvance_count (interOk : Bool) (n : Nat) (s : AppState) :
    countPlayAtCalls (doAdvance interOk n s).2 = 1 := by
  unfold doAdvance stopInBetween countPlayAtCalls
  cases s.selectedInBetweenSound <;> cases interOk <;>
    cases hib : s.inBetweenAudioRef.isSome <;> simp [hib]

/-- The advance chain hands off to `playTrackAtIndex nextIndex`. -/
theorem doAdvance_mem (interOk : Bool) (n : Nat) (s : AppState) :
    Event.playAtCall n ∈ (doAdvance interOk n s).2 := by
  unfold doAdvance stopInBetween
  cases s.selectedInBetweenSound <;> cases interOk <;> simp

/-- The advance chain publishes the next index before handing off. -/
theorem doAdvance_sublist (interOk : Bool) (n : Nat) (s : AppState) :
    [Event.currentIndexSet n, Event.playAtCall n].Sublist
      (doAdvance interOk n s).2 := by
  unfold doAdvance stopInBetween
  cases s.selectedInBetweenSound with
  | none =>
    exact List.Sublist.cons₂ _ ((List.Sublist.refl _).cons _)
  | some url =>
    cases interOk <;> cases hib : s.inBetweenAudioRef.isSome <;>
      simp only [hib, if_true, if_false, List.singleton_append,
        List.nil_append, List.cons_append] <;>
      first
        | exact (((List.Sublist.refl _).cons _).cons _).cons _
        | exact ((List.Sublist.refl _).cons _).cons _

/-- The advance chain does not reset the one-shot guard. -/
theorem doAdvance_hasAdvanced (interOk : Bool) (n : Nat) (s : AppState) :
    (doAdvance interOk n s).1.hasAdvanced = s.hasAdvanced := by
  unfold doAdvance stopInBetween
  cases s.selectedInBetweenSound <;> cases interOk <;> rfl

/-- A clip-end tick with the guard unset: stop the timer, issue the remote
pause when device and token are present, and run the advance chain on the
stopped-clip state — for either outcome of the remote pause call. -/
theorem sdkTick_clipend (env : Env) (pauseOk interOk : Bool)
    (index ntracks carry elapsed : Nat) (s : AppState)
    (he : SDK_CLIP_DURATION_MS ≤ carry + elapsed)
    (hg : s.hasAdvanced = false) :
    sdkTick env pauseOk interOk index ntracks carry elapsed s =
      ((doAdvance interOk ((index + 1) % ntracks) (clipEndState s)).1,
        (if s.clipTimer.isSome then [Event.timerCancel] else []) ++
        (if env.deviceId.isSome && env.accessToken.isSome
          then [Event.remotePause] else []) ++
        (doAdvance interOk ((index + 1) % ntracks) (clipEndState s)).2) := by
  simp only [sdkTick, clearClipTimer]
  rw [if_pos he]
  simp only [hg, Bool.false_eq_true, if_false]
  cases hc : env.deviceId.isSome && env.accessToken.isSome <;>
    cases pauseOk <;> simp [clipEndState]

/-- A tick that observes the guard already set changes nothing and emits no
events when past the threshold; below the threshold it only publishes
progress. -/
theorem sdkTick_snd_advanced (env : Env) (pauseOk interOk : Bool)
    (index ntracks carry elapsed : Nat) (s : AppState)
    (hg : s.hasAdvanced = true) :
    (sdkTick env pauseOk interOk index ntracks carry elapsed s).2 = [] := by
  simp only [sdkTick]
  split
  · simp [hg]
  · rfl

/-- `advanceToNext` with the guard already set is a strict no-op. -/
theorem advanceToNext_advanced (interOk : Bool) (index ntracks : Nat)
    (s : AppState) (hg : s.hasAdvanced = true) :
    advanceToNext interOk index ntracks s = (s, []) := by
  simp only [advanceToNext]
  rw [if_pos hg]

/-! ## Claim theorems -/

/-- C10: `shuffle` returns a permutation of its input — same length and the
same multiset of elements — and on empty or single-element inputs returns
exactly the input's contents.  The source copies the array (`[...array]`)
and mutates only the copy; in the pure embedding the input value is
untouched by construction, and the result is a fresh list built from the
copy. -/
theorem shuffle_is_fresh_permutation {α : Type _} (rand : Nat → Nat)
    (l : List α) :
    (shuffle rand l).Perm l ∧
    (shuffle rand l).length = l.length ∧
    ((shuffle rand l : List α) : Multiset α) = (l : Multiset α) ∧
    shuffle rand ([] : List α) = [] ∧
    (∀ a : α, shuffle rand [a] = [a]) :=
  ⟨shuffle_perm rand l, (shuffle_perm rand l).length_eq,
    Multiset.coe_eq_coe.2 (shuffle_perm rand l), rfl, fun _ => rfl⟩

/-- C5: `playAt(i)` on an Unplayable track (no usable SDK uri, no preview
url) is a no-op with a warning: the returned state is exactly the input
state — current index, elapsed, is-playing, songs-played counter and timer
all unchanged — and the only effect is the warning. -/
theorem playAt_unplayable_is_noop (env : Env) (sdkStartOk : Bool)
    (index : Nat) (s : AppState) (track : Track)
    (ht : s.tracks[index]? = some track)
    (htok : env.accessToken.isNone = false)
    (hsdk : canUseSdk env track = false)
    (hprev : canUsePreview track = false) :
    playTrackAtIndex env sdkStartOk index s =
      (s, [Event.warnUnplayable track.name]) := by
  unfold playTrackAtIndex
  rw [ht]
  simp [htok, hsdk, hprev]

/-- Witness for C5 at a concrete unplayable track. -/
theorem playAt_unplayable_is_noop_witness :
    playTrackAtIndex envNoSdk true 0 (initialState [unplayableTrack]) =
      (initialState [unplayableTrack],
        [Event.warnUnplayable unplayableTrack.name]) :=
  playAt_unplayable_is_noop envNoSdk true 0 (initialState [unplayableTrack])
    unplayableTrack (by decide) (by decide) (by decide) (by decide)

/-- C7: the automatic advance at clip-end targets `(index + 1) % length`
(so the last index wraps to 0), while manual navigation is clamped:
`next()` at the last index and `prev()` at index 0 are strict no-ops. -/
theorem auto_advance_wraps_manual_clamped (env : Env)
    (pauseOk interOk sdkStartOk : Bool) (index ntracks carry elapsed : Nat)
    (s : AppState)
    (he : SDK_CLIP_DURATION_MS ≤ carry + elapsed)
    (hg : s.hasAdvanced = false) :
    Event.playAtCall ((index + 1) % ntracks) ∈
      (sdkTick env pauseOk interOk index ntracks carry elapsed s).2 ∧
    (index + 1 = ntracks →
      Event.playAtCall 0 ∈
        (sdkTick env pauseOk interOk index ntracks carry elapsed s).2) ∧
    (s.currentIndex = some index → s.tracks.length = ntracks →
      index + 1 = ntracks → handleNext env sdkStartOk s = (s, [])) ∧
    (s.currentIndex = some 0 → handlePrev env sdkStartOk s = (s, [])) := by
  have hmem : Event.playAtCall ((index + 1) % ntracks) ∈
      (sdkTick env pauseOk interOk index ntracks carry elapsed s).2 := by
    rw [sdkTick_clipend env pauseOk interOk index ntracks carry elapsed s he hg]
    simp only [List.mem_append]
    exact Or.inr (doAdvance_mem interOk _ _)
  refine ⟨hmem, ?_, ?_, ?_⟩
  · intro hw
    have : (index + 1) % ntracks = 0 := by rw [hw]; exact Nat.mod_self ntracks
    rwa [this] at hmem
  · intro hci hlen hw
    simp [handleNext, hci, hlen, hw]
  · intro hci
    simp [handlePrev, hci]

/-- C1: at a clip-end the advance chain fires exactly once.  With the guard
unset and the duration threshold crossed, one tick hands off to the
Sequencer chain exactly once and sets the guard; after that, a duplicate
tick past the threshold (any carry-over/elapsed pair, any remote-pause or
interstitial outcome) emits nothing, and a stale `advanceToNext` call is a
strict no-op. -/
theorem clipend_advance_fires_exactly_once (env : Env)
    (pauseOk interOk pauseOk2 interOk2 interOk3 : Bool)
    (index ntracks carry e1 carry2 e2 index3 ntracks3 : Nat) (s : AppState)
    (hg : s.hasAdvanced = false)
    (h1 : SDK_CLIP_DURATION_MS ≤ carry + e1) :
    countPlayAtCalls (sdkTick env pauseOk interOk index ntracks carry e1 s).2 = 1 ∧
    (sdkTick env pauseOk interOk index ntracks carry e1 s).1.hasAdvanced = true ∧
    (sdkTick env pauseOk2 interOk2 index ntracks carry2 e2
      (sdkTick env pauseOk interOk index ntracks carry e1 s).1).2 = [] ∧
    advanceToNext interOk3 index3 ntracks3
      (sdkTick env pauseOk interOk index ntracks carry e1 s).1 =
      ((sdkTick env pauseOk interOk index ntracks carry e1 s).1, []) := by
  have hstep := sdkTick_clipend env pauseOk interOk index ntracks carry e1 s h1 hg
  have hadv : (sdkTick env pauseOk interOk index ntracks carry e1 s).1.hasAdvanced = true := by
    rw [hstep]
    show (doAdvance interOk ((index + 1) % ntracks) (clipEndState s)).1.hasAdvanced = true
    rw [doAdvance_hasAdvanced]
    rfl
  refine ⟨?_, hadv, sdkTick_snd_advanced env pauseOk2 interOk2 index ntracks
    carry2 e2 _ hadv, advanceToNext_advanced interOk3 index3 ntracks3 _ hadv⟩
  rw [hstep]
  show countPlayAtCalls
    (((if s.clipTimer.isSome then [Event.timerCancel] else []) ++
      (if env.deviceId.isSome && env.accessToken.isSome
        then [Event.remotePause] else [])) ++
      (doAdvance interOk ((index + 1) % ntracks) (clipEndState s)).2) = 1
  simp only [countPlayAtCalls, List.filter_append, List.length_append]
  have hd := doAdvance_count interOk ((index + 1) % ntracks) (clipEndState s)
  unfold countPlayAtCalls at hd
  rw [hd]
  split <;> split <;> simp

/-- C8: at a clip-end on the Full backend (device and token present), the
chain issues the remote pause before everything else, continues to the
hand-off for either outcome of that call (`pauseOk` is arbitrary), inserts
the fixed 300ms settle delay before `playAt(nextIndex)` when no
interstitial is selected, and in every path publishes the next index
before the hand-off where the next clip's audio starts loading. -/
theorem full_clipend_chain_order (env : Env) (pauseOk interOk : Bool)
    (index ntracks carry elapsed : Nat) (s : AppState)
    (he : SDK_CLIP_DURATION_MS ≤ carry + elapsed)
    (hg : s.hasAdvanced = false)
    (hdev : env.deviceId.isSome = true)
    (htok : env.accessToken.isSome = true) :
    (∃ tail, (sdkTick env pauseOk interOk index ntracks carry elapsed s).2 =
      (if s.clipTimer.isSome then [Event.timerCancel] else []) ++
        Event.remotePause :: tail) ∧
    Event.playAtCall ((index + 1) % ntracks) ∈
      (sdkTick env pauseOk interOk index ntracks carry elapsed s).2 ∧
    (s.selectedInBetweenSound = none →
      (sdkTick env pauseOk interOk index ntracks carry elapsed s).2 =
        (if s.clipTimer.isSome then [Event.timerCancel] else []) ++
          [Event.remotePause, Event.currentIndexSet ((index + 1) % ntracks),
            Event.settleDelay 300, Event.playAtCall ((index + 1) % ntracks)]) ∧
    [Event.currentIndexSet ((index + 1) % ntracks),
      Event.playAtCall ((index + 1) % ntracks)].Sublist
      (sdkTick env pauseOk interOk index ntracks carry elapsed s).2 := by
  have hstep := sdkTick_clipend env pauseOk interOk index ntracks carry elapsed s he hg
  refine ⟨⟨(doAdvance interOk ((index + 1) % ntracks) (clipEndState s)).2, ?_⟩,
    ?_, ?_, ?_⟩
  · rw [hstep]
    simp [hdev, htok]
  · rw [hstep]
    exact List.mem_append_right _ (doAdvance_mem _ _ _)
  · intro hsel
    rw [hstep]
    simp [hdev, htok, doAdvance, clipEndState, hsel]
  · rw [hstep]
    exact (doAdvance_sublist _ _ _).trans (List.sublist_append_right _ _)

/-- C6: `pause()` keeps the elapsed-within-clip value, and a following
`resume()` with the same backend kind still chosen continues from it: the
Full backend restarts at clip-window start plus the retained elapsed, the
Preview backend plays from the retained elapsed, and in both cases the new
interval carries the retained elapsed over. -/
theorem pause_retains_resume_continues (env : Env) (s : AppState)
    (index : Nat) (track : Track)
    (hci : s.currentIndex = some index)
    (ht : s.tracks[index]? = some track)
    (htok : env.accessToken.isNone = false) :
    (handlePause env s).1.clipElapsedMs = s.clipElapsedMs ∧
    (s.useSdk = true → canUseSdk env track = true →
      Event.remotePlay (SDK_CLIP_START_MS + s.clipElapsedMs) ∈
        (handleResume env true (handlePause env s).1).2 ∧
      (handleResume env true (handlePause env s).1).1.clipTimer =
        some s.clipElapsedMs) ∧
    (s.useSdk = false → canUseSdk env track = false →
      Event.previewPlay s.clipElapsedMs ∈
        (handleResume env true (handlePause env s).1).2 ∧
      (handleResume env true (handlePause env s).1).1.clipTimer =
        some s.clipElapsedMs) := by
  rw [handlePause_fst]
  refine ⟨rfl, ?_, ?_⟩ <;> intro _ hsdk <;>
    simp [handleResume, hci, ht, htok, hsdk, clearClipTimer, stopInBetween]

/-- Witness for C6, applied on both backends: SDK pause/resume at 59.9s and
preview pause/resume at 8s. -/
theorem pause_retains_resume_continues_witness :
    ((handlePause envReady sdkPlayingState).1.clipElapsedMs =
        sdkPlayingState.clipElapsedMs ∧
      Event.remotePlay (SDK_CLIP_START_MS + sdkPlayingState.clipElapsedMs) ∈
        (handleResume envReady true (handlePause envReady sdkPlayingState).1).2 ∧
      (handleResume envReady true
        (handlePause envReady sdkPlayingState).1).1.clipTimer =
        some sdkPlayingState.clipElapsedMs) ∧
    ((handlePause envNoSdk previewOnlyPausedState).1.clipElapsedMs =
        previewOnlyPausedState.clipElapsedMs ∧
      Event.previewPlay previewOnlyPausedState.clipElapsedMs ∈
        (handleResume envNoSdk true
          (handlePause envNoSdk previewOnlyPausedState).1).2 ∧
      (handleResume envNoSdk true
        (handlePause envNoSdk previewOnlyPausedState).1).1.clipTimer =
        some previewOnlyPausedState.clipElapsedMs) := by
  have h1 := pause_retains_resume_continues envReady sdkPlayingState 0 sdkTrack
    (by decide) (by decide) (by decide)
  have h2 := pause_retains_resume_continues envNoSdk previewOnlyPausedState 0
    previewOnlyTrack (by decide) (by decide) (by decide)
  exact ⟨⟨h1.1, (h1.2.1 (by decide) (by decide)).1, (h1.2.1 (by decide) (by decide)).2⟩,
    ⟨h2.1, (h2.2.2 (by decide) (by decide)).1, (h2.2.2 (by decide) (by decide)).2⟩⟩

/-- Witness for C1 at a concrete clip-end followed by a duplicate tick. -/
theorem clipend_advance_fires_exactly_once_witness :
    countPlayAtCalls (sdkTick envReady true true 0 1 0 60000 sdkPlayingState).2 = 1 ∧
    (sdkTick envReady true true 0 1 0 60000 sdkPlayingState).1.hasAdvanced = true ∧
    (sdkTick envReady true true 0 1 0 70000
      (sdkTick envReady true true 0 1 0 60000 sdkPlayingState).1).2 = [] ∧
    advanceToNext true 0 1
      (sdkTick envReady true true 0 1 0 60000 sdkPlayingState).1 =
      ((sdkTick envReady true true 0 1 0 60000 sdkPlayingState).1, []) :=
  clipend_advance_fires_exactly_once envReady true true true true true
    0 1 0 60000 0 70000 0 1 sdkPlayingState (by decide) (by decide)

/-- Witness for C8 at a concrete clip-end with no interstitial selected. -/
theorem full_clipend_chain_order_witness :
    (∃ tail, (sdkTick envReady true true 0 1 0 60000 sdkPlayingState).2 =
      (if sdkPlayingState.clipTimer.isSome then [Event.timerCancel] else []) ++
        Event.remotePause :: tail) ∧
    Event.playAtCall ((0 + 1) % 1) ∈
      (sdkTick envReady true true 0 1 0 60000 sdkPlayingState).2 ∧
    (sdkPlayingState.selectedInBetweenSound = none →
      (sdkTick envReady true true 0 1 0 60000 sdkPlayingState).2 =
        (if sdkPlayingState.clipTimer.isSome then [Event.timerCancel] else []) ++
          [Event.remotePause, Event.currentIndexSet ((0 + 1) % 1),
            Event.settleDelay 300, Event.playAtCall ((0 + 1) % 1)]) ∧
    [Event.currentIndexSet ((0 + 1) % 1),
      Event.playAtCall ((0 + 1) % 1)].Sublist
      (sdkTick envReady true true 0 1 0 60000 sdkPlayingState).2 :=
  full_clipend_chain_order envReady true true 0 1 0 60000 sdkPlayingState
    (by decide) (by decide) (by decide) (by decide)

/-- Witness for C7: one track, clip-end tick wraps 0 → 0; manual next/prev
at the boundaries do nothing. -/
theorem auto_advance_wraps_manual_clamped_witness :
    Event.playAtCall ((0 + 1) % 1) ∈
      (sdkTick envReady true true 0 1 0 60000 sdkPlayingState).2 ∧
    (0 + 1 = 1 →
      Event.playAtCall 0 ∈
        (sdkTick envReady true true 0 1 0 60000 sdkPlayingState).2) ∧
    (sdkPlayingState.currentIndex = some 0 →
      sdkPlayingState.tracks.length = 1 → 0 + 1 = 1 →
      handleNext envReady true sdkPlayingState = (sdkPlayingState, [])) ∧
    (sdkPlayingState.currentIndex = some 0 →
      handlePrev envReady true sdkPlayingState = (sdkPlayingState, [])) :=
  auto_advance_wraps_manual_clamped envReady true true true 0 1 0 60000
    sdkPlayingState (by decide) (by decide)

/-- Counterexample to C3: paused at 5s on the Preview backend, a resume with
a now-ready SDK device switches backend kind to Full — yet the remote start
is issued at `45000 + 5000 = 50000` ms (clip-window start plus the retained
elapsed), the new interval carries 5000 over and `clipElapsedMs` stays 5000:
playback does not start fresh at elapsed 0. -/
theorem resume_after_backend_switch_not_fresh :
    (handleResume envReady true previewPausedState).1.clipTimer = some 5000 ∧
    Event.remotePlay 50000 ∈ (handleResume envReady true previewPausedState).2 ∧
    Event.remotePlay 45000 ∉ (handleResume envReady true previewPausedState).2 ∧
    (handleResume envReady true previewPausedState).1.clipElapsedMs = 5000 := by
  decide

/-- C3 as amended: `resume()` recomputes the backend, and even when the
chosen backend kind differs from the one active before the pause, playback
continues from the retained elapsed value — the Full backend starts at
clip-window start plus the retained elapsed, the Preview backend plays from
the retained elapsed, and the new interval carries it over; elapsed is never
reset to 0 by a backend switch. -/
theorem resume_continues_from_elapsed_after_switch (env : Env) (s : AppState)
    (index : Nat) (track : Track)
    (hci : s.currentIndex = some index)
    (ht : s.tracks[index]? = some track)
    (htok : env.accessToken.isNone = false) :
    (s.useSdk = false → canUseSdk env track = true →
      Event.remotePlay (SDK_CLIP_START_MS + s.clipElapsedMs) ∈
        (handleResume env true s).2 ∧
      (handleResume env true s).1.clipTimer = some s.clipElapsedMs) ∧
    (s.useSdk = true → canUseSdk env track = false →
      Event.previewPlay s.clipElapsedMs ∈ (handleResume env true s).2 ∧
      (handleResume env true s).1.clipTimer = some s.clipElapsedMs) := by
  constructor <;> intro _ hsdk <;>
    simp [handleResume, hci, ht, htok, hsdk, clearClipTimer, stopInBetween]

/-- Witness for the amended C3, in both switch directions. -/
theorem resume_continues_from_elapsed_after_switch_witness :
    (Event.remotePlay (SDK_CLIP_START_MS + previewPausedState.clipElapsedMs) ∈
        (handleResume envReady true previewPausedState).2 ∧
      (handleResume envReady true previewPausedState).1.clipTimer =
        some previewPausedState.clipElapsedMs) ∧
    (Event.previewPlay sdkPausedOfflineState.clipElapsedMs ∈
        (handleResume envNoSdk true sdkPausedOfflineState).2 ∧
      (handleResume envNoSdk true sdkPausedOfflineState).1.clipTimer =
        some sdkPausedOfflineState.clipElapsedMs) :=
  ⟨(resume_continues_from_elapsed_after_switch envReady previewPausedState 0
      sdkTrack (by decide) (by decide) (by decide)).1 (by decide) (by decide),
    (resume_continues_from_elapsed_after_switch envNoSdk sdkPausedOfflineState 0
      sdkTrack (by decide) (by decide) (by decide)).2 (by decide) (by decide)⟩

/-- Counterexample to C4: `playAt(0)` on a playable track while an
interstitial element is live neither stops nor detaches it — the handle is
still live after the call and no interstitial-stop is issued. -/
theorem playAt_leaves_interstitial_live :
    (playTrackAtIndex envReady true 0 interstitialLiveState).1.inBetweenAudioRef =
      some "chime" ∧
    Event.interstitialStop ∉
      (playTrackAtIndex envReady true 0 interstitialLiveState).2 := by
  decide

/-- C4 as amended: `playAt(index)` on a playable track releases the local
backend audio handle and cancels the clip timer before issuing the new
backend start and installing the new timer (so at most one backend handle
and one Clip Clock timer are ever live), but it leaves an active
interstitial handle untouched — interstitial release happens only in
`pause()`, `resume()` and the advance chain. -/
theorem playAt_releases_backend_and_timer_first (env : Env) (sdkStartOk : Bool)
    (index : Nat) (s : AppState) (track : Track)
    (ht : s.tracks[index]? = some track)
    (htok : env.accessToken.isNone = false)
    (hp : (canUseSdk env track || canUsePreview track) = true) :
    (playTrackAtIndex env sdkStartOk index s).2 =
      ((if s.audioRef.isSome then [Event.localPause] else []) ++
        (if s.clipTimer.isSome then [Event.timerCancel] else [])) ++
      (if canUseSdk env track then
        Event.remotePlay SDK_CLIP_START_MS ::
          (if sdkStartOk then [Event.timerStart 0] else [])
      else [Event.previewPlay 0, Event.timerStart 0]) ∧
    (playTrackAtIndex env sdkStartOk index s).1.inBetweenAudioRef =
      s.inBetweenAudioRef := by
  unfold playTrackAtIndex
  rw [ht]
  cases hsdk : canUseSdk env track with
  | true =>
    cases sdkStartOk <;> simp [htok, hsdk, stopAudioRef, clearClipTimer]
  | false =>
    rw [hsdk] at hp
    simp only [Bool.false_or] at hp
    cases sdkStartOk <;> simp [htok, hsdk, hp, stopAudioRef, clearClipTimer]

/-- Witness for the amended C4: starting over a live preview element emits
the local release strictly before the new acquisition, and the interstitial
field is untouched. -/
theorem playAt_releases_backend_and_timer_first_witness :
    (playTrackAtIndex envReady true 0 previewPausedState).2 =
      [Event.localPause, Event.remotePlay SDK_CLIP_START_MS,
        Event.timerStart 0] ∧
    (playTrackAtIndex envReady true 0 previewPausedState).1.inBetweenAudioRef =
      previewPausedState.inBetweenAudioRef := by
  exact playAt_releases_backend_and_timer_first envReady true 0
    previewPausedState sdkTrack (by decide) (by decide) (by decide)

/-- Counterexample to C9: on the Preview backend a rejected `play()` logs
and reverts to not-playing, but the already-installed clip interval keeps
running, so the clip still auto-advances at the 30s threshold — the claim's
"no auto-advance" fails for the Preview backend. -/
theorem preview_start_failure_still_advances :
    (previewPlayCatch (playTrackAtIndex envNoSdk true 0
      (initialState [previewOnlyTrack])).1).isPlaying = false ∧
    (previewPlayCatch (playTrackAtIndex envNoSdk true 0
      (initialState [previewOnlyTrack])).1).clipTimer = some 0 ∧
    countPlayAtCalls (previewTick true 0 1 0 30000
      (previewPlayCatch (playTrackAtIndex envNoSdk true 0
        (initialState [previewOnlyTrack])).1)).2 = 1 := by
  decide

/-- C9 as amended: every start failure is logged and reverts the session to
not-playing, with no retry and no crash.  On the Full backend the awaited
start fails before the interval is installed, so the clip is abandoned with
no auto-advance; on the Preview backend the rejection handler only clears
is-playing — the already-installed clip interval is not cancelled, so the
auto-advance at clip end still fires. -/
theorem start_failure_reverts_not_playing (env : Env) (sdkStartOk : Bool)
    (index : Nat) (s : AppState) (track : Track)
    (ht : s.tracks[index]? = some track)
    (htok : env.accessToken.isNone = false) :
    (canUseSdk env track = true →
      (playTrackAtIndex env false index s).1.isPlaying = false ∧
      (playTrackAtIndex env false index s).1.clipTimer = none ∧
      countPlayAtCalls (playTrackAtIndex env false index s).2 = 0) ∧
    (canUseSdk env track = false → canUsePreview track = true →
      (previewPlayCatch (playTrackAtIndex env sdkStartOk index s).1).isPlaying =
        false ∧
      (previewPlayCatch (playTrackAtIndex env sdkStartOk index s).1).clipTimer =
        some 0) := by
  constructor
  · intro hsdk
    unfold playTrackAtIndex
    rw [ht]
    cases hA : s.audioRef.isSome <;> cases hB : s.clipTimer.isSome <;>
      simp [htok, hsdk, hA, hB, stopAudioRef, clearClipTimer, countPlayAtCalls]
  · intro hsdk hprev
    unfold playTrackAtIndex previewPlayCatch
    rw [ht]
    simp [htok, hsdk, hprev, stopAudioRef, clearClipTimer]

/-- Witness for the amended C9 on both backends. -/
theorem start_failure_reverts_not_playing_witness :
    ((playTrackAtIndex envReady false 0 (initialState [sdkTrack])).1.isPlaying =
        false ∧
      (playTrackAtIndex envReady false 0 (initialState [sdkTrack])).1.clipTimer =
        none ∧
      countPlayAtCalls
        (playTrackAtIndex envReady false 0 (initialState [sdkTrack])).2 = 0) ∧
    ((previewPlayCatch (playTrackAtIndex envNoSdk true 0
        (initialState [previewOnlyTrack])).1).isPlaying = false ∧
      (previewPlayCatch (playTrackAtIndex envNoSdk true 0
        (initialState [previewOnlyTrack])).1).clipTimer = some 0) :=
  ⟨(start_failure_reverts_not_playing envReady false 0 (initialState [sdkTrack])
      sdkTrack (by decide) (by decide)).1 (by decide),
    (start_failure_reverts_not_playing envNoSdk true 0
      (initialState [previewOnlyTrack]) previewOnlyTrack (by decide)
      (by decide)).2 (by decide) (by decide)⟩

/-- C2 (divergence witness): the playlist-selection effect keeps no
generation token and registers no cleanup, so a fetch continuation started
for an earlier playlist still mutates the session after the list was
replaced.  Scenario: select playlist A (fetch pending), select playlist B
(replacement), B's fetch resolves and installs `[trackB]` — then A's stale
continuation resolves and overwrites the tracks with `[trackA]`, mutating
state of a superseded list generation. -/
theorem stale_fetch_continuation_mutates_replaced_list :
    (fetchPageContinuation (fun _ => 0) [trackB]
        (selectPlaylistEffect (selectPlaylistEffect emptyListSession))).tracks =
      [trackB] ∧
    (fetchPageContinuation (fun _ => 0) [trackA]
        (fetchPageContinuation (fun _ => 0) [trackB]
          (selectPlaylistEffect (selectPlaylistEffect emptyListSession)))).tracks =
      [trackA] ∧
    [trackA] ≠ [trackB] := by
  decide

end Shotify
